import Mathlib

/-!
Shallow embedding of the document-reading stage of open-resume-ai:
`src/app/lib/parse-resume-from-pdf/unstructured-api.ts` and
`src/app/lib/parse-resume-from-pdf/read-document.ts`.

Modelling conventions:
* JavaScript numbers are rationals (`Rat`); the claims involve only
  `min`, `max` and subtraction, which are exact.
* A thrown JavaScript value is the inductive `Thrown`: an `Error`
  instance is identified by its message string (the code only reads
  `error.message` and tests `error instanceof Error`); any other thrown
  value is abstracted by a numeric tag.
* Each network call (the Unstructured API fetch inside
  `parseDocumentWithUnstructured`, the file fetch inside `readPdf`) is a
  source of nondeterminism, so its outcome is passed in as an explicit
  `Except Thrown _` argument; every function of the source then becomes a
  total Lean function of its inputs and the outcomes of the I/O it
  performs.
* The downstream pipeline stages `groupTextItemsIntoLines`,
  `groupLinesIntoSections` and `extractResumeFromSections` are imported
  by the source from modules that are not part of the supplied files, so
  the pipeline functions take them as opaque function parameters.
-/

namespace OpenResume

/-- A JavaScript thrown value: an `Error` instance, identified by its
message, or any other value, abstracted by a tag (the code only tests
`instanceof Error` and reads `message`). -/
inductive Thrown where
  | jsError (message : String)
  | nonError (tag : Nat)
  deriving DecidableEq

/-- The `coordinates` object of the Unstructured element metadata; each
point is an `(x, y)` pair of page coordinates. -/
structure Coordinates where
  points : List (Rat × Rat)
  system : String
  layout_width : Rat
  layout_height : Rat
  deriving DecidableEq

/-- The optional `metadata` of an Unstructured element. -/
structure Metadata where
  filename : Option String := none
  page_number : Option Nat := none
  coordinates : Option Coordinates := none
  deriving DecidableEq

/-- An element returned by the Unstructured API. -/
structure UnstructuredElement where
  type : String
  text : String
  metadata : Option Metadata := none
  deriving DecidableEq

/-- The positioned text fragment handed to the downstream pipeline
(the shape of the object literal built in `convertUnstructuredToTextItems`). -/
structure TextItem where
  text : String
  x : Rat
  y : Rat
  width : Rat
  height : Rat
  fontName : String
  hasEOL : Bool
  deriving DecidableEq

/-- The relevant part of a `fetch` response inside
`parseDocumentWithUnstructured`: the `ok` flag, status data, the body text
read in the failure branch, and the outcome of `await response.json()`
(which may itself throw). -/
structure ApiResponse where
  ok : Bool
  status : Nat
  statusText : String
  bodyText : String
  jsonBody : Except Thrown (List UnstructuredElement)

/-- JavaScript `String.prototype.trim`: remove whitespace from both ends. -/
def jsTrim (s : String) : String :=
  ⟨((s.data.dropWhile Char.isWhitespace).reverse.dropWhile Char.isWhitespace).reverse⟩

/-- JavaScript `Math.min` applied to a spread array; the call site only
uses it on nonempty lists (`Math.min()` of no arguments would be
`Infinity`, which never occurs here because the points list is checked
nonempty first). -/
def mathMin : List Rat → Rat
  | [] => 0
  | a :: rest => rest.foldl min a

/-- JavaScript `Math.max` applied to a spread array; see `mathMin`. -/
def mathMax : List Rat → Rat
  | [] => 0
  | a :: rest => rest.foldl max a

/-- The `(x, y, width, height)` quadruple computed from the optional
coordinates: the source initialises four mutable lets to `0, 0, 100, 12`
and overwrites them when the coordinates carry a nonempty points list
(`coordinates && coordinates.points && coordinates.points.length > 0`;
a list value is always truthy, so only the length test matters).
`pageHeight` models `coordinates.layout_height || 792`. -/
def convertPos (coordinates : Option Coordinates) : Rat × Rat × Rat × Rat :=
  match coordinates with
  | some c =>
      if c.points.length > 0 then
        let points := c.points
        let xs := points.map Prod.fst
        let ys := points.map Prod.snd
        let x := mathMin xs
        let maxX := mathMax xs
        let width := maxX - x
        let maxY := mathMax ys
        let minY := mathMin ys
        let height := maxY - minY
        let pageHeight := if c.layout_height = 0 then 792 else c.layout_height
        let y := pageHeight - maxY
        (x, y, width, height)
      else
        (0, 0, 100, 12)
  | none => (0, 0, 100, 12)

/-- The body of the `.map((element, index) => ...)` callback in
`convertUnstructuredToTextItems` (the `index` parameter is unused in the
source). `element.metadata || \x7b\x7d` is `Option.getD`, and the object
literal fixes `fontName` and `hasEOL`. -/
def convertElement (element : UnstructuredElement) : TextItem :=
  let metadata := element.metadata.getD {}
  let coordinates := metadata.coordinates
  let pos := convertPos coordinates
  { text := element.text
    x := pos.1
    y := pos.2.1
    width := pos.2.2.1
    height := pos.2.2.2
    fontName := "UnknownFont"
    hasEOL := true }

/-- The filter predicate of `convertUnstructuredToTextItems`:
`element.text && element.text.trim()` is truthy exactly when both the
text and its trim are nonempty strings. -/
def keepsElement (element : UnstructuredElement) : Bool :=
  !(element.text == "") && !(jsTrim element.text == "")

/-- `convertUnstructuredToTextItems`: filter out blank elements, then map
each surviving element to a `TextItem`. -/
def convertUnstructuredToTextItems (elements : List UnstructuredElement) :
    List TextItem :=
  (elements.filter keepsElement).map convertElement

/-- `parseDocumentWithUnstructured`, as a function of the configured API
key (`process.env.NEXT_PUBLIC_UNSTRUCTURED_API_KEY`, where `!apiKey` is
truthy for a missing or empty key; this check sits before the `try`, so
its error is not wrapped) and of the outcome of the `fetch` call. Inside
the `try`, a non-ok response raises the status error and `await
response.json()` may raise; the `catch` wraps any `Error` instance with
the prefix `Failed to parse document with Unstructured API: ` and
rethrows any non-`Error` value unchanged. -/
def parseDocumentWithUnstructured (apiKey : Option String)
    (fetchResult : Except Thrown ApiResponse) :
    Except Thrown (List UnstructuredElement) :=
  if apiKey.getD "" == "" then
    Except.error (Thrown.jsError
      ("Unstructured API key not configured. " ++
        "Please set NEXT_PUBLIC_UNSTRUCTURED_API_KEY environment variable."))
  else
    let attempt : Except Thrown (List UnstructuredElement) :=
      match fetchResult with
      | Except.error e => Except.error e
      | Except.ok response =>
          if !response.ok then
            Except.error (Thrown.jsError
              ("Unstructured API request failed: " ++ toString response.status
                ++ " " ++ response.statusText ++ " - " ++ response.bodyText))
          else
            response.jsonBody
    match attempt with
    | Except.ok elements => Except.ok elements
    | Except.error (Thrown.jsError msg) =>
        Except.error (Thrown.jsError
          ("Failed to parse document with Unstructured API: " ++ msg))
    | Except.error (Thrown.nonError t) => Except.error (Thrown.nonError t)

/-- The inline `isEmptySpace` predicate of `readDocument`:
`!textItem.hasEOL && textItem.text.trim() === ""`. -/
def isEmptySpace (textItem : TextItem) : Bool :=
  !textItem.hasEOL && (jsTrim textItem.text == "")

/-- `readDocument`, as a function of the outcome of
`parseDocumentWithUnstructured(file)`: on success, convert the elements
and filter out empty-space items; the `catch` wraps any `Error` instance
with the prefix `Failed to read document: ` and rethrows any non-`Error`
value unchanged. -/
def readDocument (parseResult : Except Thrown (List UnstructuredElement)) :
    Except Thrown (List TextItem) :=
  match parseResult with
  | Except.ok elements =>
      let textItems := convertUnstructuredToTextItems elements
      let filtered := textItems.filter (fun textItem => !isEmptySpace textItem)
      Except.ok filtered
  | Except.error e =>
      match e with
      | Thrown.jsError msg =>
          Except.error (Thrown.jsError ("Failed to read document: " ++ msg))
      | Thrown.nonError t => Except.error (Thrown.nonError t)

/-- `readPdf`, as a function of the outcome of the `fetch`/blob/`File`
construction (pure I/O, abstracted to `Except Thrown Unit`) and of the
parse outcome consumed by the inner `readDocument` call. The body ends
with `return readDocument(file)` without `await`, so a rejection coming
from `readDocument` is not intercepted by the `catch` of `readPdf` and
passes through unchanged; only a failure of the fetch/blob steps is
wrapped with the prefix `Failed to read PDF from URL: ` (non-`Error`
values again pass unchanged). -/
def readPdf (fetchResult : Except Thrown Unit)
    (parseResult : Except Thrown (List UnstructuredElement)) :
    Except Thrown (List TextItem) :=
  match fetchResult with
  | Except.ok _ => readDocument parseResult
  | Except.error e =>
      match e with
      | Thrown.jsError msg =>
          Except.error (Thrown.jsError ("Failed to read PDF from URL: " ++ msg))
      | Thrown.nonError t => Except.error (Thrown.nonError t)

/-- `parseResumeFromPdf`: read, then run the three downstream stages in
order. The stages are imported from modules outside the supplied source,
so they are opaque parameters; an `await` failure of `readPdf`
propagates out of the (try-free) function body unchanged. -/
def parseResumeFromPdf {L S R : Type}
    (groupTextItemsIntoLines : List TextItem → L)
    (groupLinesIntoSections : L → S)
    (extractResumeFromSections : S → R)
    (fetchResult : Except Thrown Unit)
    (parseResult : Except Thrown (List UnstructuredElement)) :
    Except Thrown R :=
  match readPdf fetchResult parseResult with
  | Except.error e => Except.error e
  | Except.ok textItems =>
      let lines := groupTextItemsIntoLines textItems
      let sections := groupLinesIntoSections lines
      let resume := extractResumeFromSections sections
      Except.ok resume

/-- `parseResumeFromFile`: same pipeline with `readDocument` as the first
stage. -/
def parseResumeFromFile {L S R : Type}
    (groupTextItemsIntoLines : List TextItem → L)
    (groupLinesIntoSections : L → S)
    (extractResumeFromSections : S → R)
    (parseResult : Except Thrown (List UnstructuredElement)) :
    Except Thrown R :=
  match readDocument parseResult with
  | Except.error e => Except.error e
  | Except.ok textItems =>
      let lines := groupTextItemsIntoLines textItems
      let sections := groupLinesIntoSections lines
      let resume := extractResumeFromSections sections
      Except.ok resume

/-- A sample element with no metadata, used to evaluate the theorems on
concrete input. -/
def elemPlain : UnstructuredElement :=
  { type := "NarrativeText", text := "Hello" }

/-- Sample coordinates with four corner points on a letter-sized layout. -/
def coordsA : Coordinates :=
  { points := [(10, 20), (110, 20), (10, 44), (110, 44)]
    system := "PixelSpace"
    layout_width := 612
    layout_height := 792 }

/-- A sample element carrying coordinate points. -/
def elemCoords : UnstructuredElement :=
  { type := "Title"
    text := "John Doe"
    metadata := some { coordinates := some coordsA } }

/-! ### Facts about the Math.min / Math.max model -/

theorem foldl_min_le (l : List Rat) (a : Rat) : l.foldl min a ≤ a := by
  induction l generalizing a with
  | nil => exact le_refl a
  | cons b t ih => exact le_trans (ih (min a b)) (min_le_left a b)

theorem le_foldl_max (l : List Rat) (a : Rat) : a ≤ l.foldl max a := by
  induction l generalizing a with
  | nil => exact le_refl a
  | cons b t ih => exact le_trans (le_max_left a b) (ih (max a b))

theorem foldl_min_le_of_mem {l : List Rat} {b : Rat} (h : b ∈ l) :
    ∀ a, l.foldl min a ≤ b := by
  induction l with
  | nil => cases h
  | cons c t ih =>
    intro a
    cases h with
    | head => exact le_trans (foldl_min_le t (min a b)) (min_le_right a b)
    | tail _ h2 => exact ih h2 (min a c)

theorem le_foldl_max_of_mem {l : List Rat} {b : Rat} (h : b ∈ l) :
    ∀ a, b ≤ l.foldl max a := by
  induction l with
  | nil => cases h
  | cons c t ih =>
    intro a
    cases h with
    | head => exact le_trans (le_max_right a b) (le_foldl_max t (max a b))
    | tail _ h2 => exact ih h2 (max a c)

theorem foldl_min_mem (l : List Rat) (a : Rat) :
    l.foldl min a = a ∨ l.foldl min a ∈ l := by
  induction l generalizing a with
  | nil => exact Or.inl rfl
  | cons b t ih =>
    rcases ih (min a b) with h | h
    · rcases min_choice a b with hm | hm
      · exact Or.inl (by rw [List.foldl_cons, h, hm])
      · refine Or.inr ?_
        rw [List.foldl_cons, h, hm]
        exact List.mem_cons_self b t
    · exact Or.inr (List.mem_cons_of_mem b h)

theorem foldl_max_mem (l : List Rat) (a : Rat) :
    l.foldl max a = a ∨ l.foldl max a ∈ l := by
  induction l generalizing a with
  | nil => exact Or.inl rfl
  | cons b t ih =>
    rcases ih (max a b) with h | h
    · rcases max_choice a b with hm | hm
      · exact Or.inl (by rw [List.foldl_cons, h, hm])
      · refine Or.inr ?_
        rw [List.foldl_cons, h, hm]
        exact List.mem_cons_self b t
    · exact Or.inr (List.mem_cons_of_mem b h)

theorem mathMin_mem {l : List Rat} (h : l ≠ []) : mathMin l ∈ l := by
  cases l with
  | nil => exact absurd rfl h
  | cons a t =>
    show t.foldl min a ∈ a :: t
    rcases foldl_min_mem t a with h2 | h2
    · rw [h2]; exact List.mem_cons_self a t
    · exact List.mem_cons_of_mem a h2

theorem mathMax_mem {l : List Rat} (h : l ≠ []) : mathMax l ∈ l := by
  cases l with
  | nil => exact absurd rfl h
  | cons a t =>
    show t.foldl max a ∈ a :: t
    rcases foldl_max_mem t a with h2 | h2
    · rw [h2]; exact List.mem_cons_self a t
    · exact List.mem_cons_of_mem a h2

theorem mathMin_le {l : List Rat} {b : Rat} (h : b ∈ l) : mathMin l ≤ b := by
  cases l with
  | nil => cases h
  | cons a t =>
    show t.foldl min a ≤ b
    cases h with
    | head => exact foldl_min_le t b
    | tail _ h2 => exact foldl_min_le_of_mem h2 a

theorem le_mathMax {l : List Rat} {b : Rat} (h : b ∈ l) : b ≤ mathMax l := by
  cases l with
  | nil => cases h
  | cons a t =>
    show b ≤ t.foldl max a
    cases h with
    | head => exact le_foldl_max t b
    | tail _ h2 => exact le_foldl_max_of_mem h2 a

theorem mathMin_le_mathMax {l : List Rat} (h : l ≠ []) :
    mathMin l ≤ mathMax l :=
  mathMin_le (mathMax_mem h)

/-! ### Structural facts about the conversion -/

theorem convertPos_none : convertPos none = (0, 0, 100, 12) := rfl

theorem convertPos_no_points (c : Coordinates) (h : c.points = []) :
    convertPos (some c) = (0, 0, 100, 12) := by
  have hl : ¬ c.points.length > 0 := by
    rw [h]
    exact Nat.lt_irrefl 0
  simp only [convertPos, if_neg hl]

theorem convertPos_some (c : Coordinates) (hp : c.points ≠ []) :
    convertPos (some c)
      = (mathMin (c.points.map Prod.fst),
         (if c.layout_height = 0 then 792 else c.layout_height)
           - mathMax (c.points.map Prod.snd),
         mathMax (c.points.map Prod.fst) - mathMin (c.points.map Prod.fst),
         mathMax (c.points.map Prod.snd) - mathMin (c.points.map Prod.snd)) := by
  have hl : c.points.length > 0 := List.length_pos.mpr hp
  simp only [convertPos, if_pos hl]

theorem convertElement_text (e : UnstructuredElement) :
    (convertElement e).text = e.text := rfl

theorem convertElement_fontName (e : UnstructuredElement) :
    (convertElement e).fontName = "UnknownFont" := rfl

theorem convertElement_hasEOL (e : UnstructuredElement) :
    (convertElement e).hasEOL = true := rfl

theorem convertElement_x (e : UnstructuredElement) :
    (convertElement e).x = (convertPos (e.metadata.getD {}).coordinates).1 := rfl

theorem convertElement_y (e : UnstructuredElement) :
    (convertElement e).y = (convertPos (e.metadata.getD {}).coordinates).2.1 := rfl

theorem convertElement_width (e : UnstructuredElement) :
    (convertElement e).width
      = (convertPos (e.metadata.getD {}).coordinates).2.2.1 := rfl

theorem convertElement_height (e : UnstructuredElement) :
    (convertElement e).height
      = (convertPos (e.metadata.getD {}).coordinates).2.2.2 := rfl

/-- The filter condition is equivalent to the trim test alone, because a
string with a nonempty trim is itself nonempty. -/
theorem keepsElement_eq_trim (e : UnstructuredElement) :
    keepsElement e = !(jsTrim e.text == "") := by
  by_cases h0 : e.text = ""
  · rw [keepsElement, h0]
    rfl
  · have hb : (e.text == "") = false := by
      exact beq_eq_false_iff_ne.mpr h0
    rw [keepsElement, hb]
    rfl

theorem mem_convert {item : TextItem} {elements : List UnstructuredElement}
    (h : item ∈ convertUnstructuredToTextItems elements) :
    ∃ e, e ∈ elements.filter keepsElement ∧ convertElement e = item :=
  List.mem_map.mp h

/-- Mapping the text of the blank-filtered elements equals filtering the
mapped texts by the same blank test. -/
theorem map_text_filter (l : List UnstructuredElement) :
    (l.filter (fun e => !(jsTrim e.text == ""))).map UnstructuredElement.text
      = (l.map UnstructuredElement.text).filter
          (fun s => !(jsTrim s == "")) := by
  induction l with
  | nil => rfl
  | cons a t ih =>
    cases hp : (!(jsTrim a.text == "")) with
    | true => simp [List.filter_cons, hp, ih]
    | false => simp [List.filter_cons, hp, ih]

/-! ### Claim theorems -/

/-- C1, counterexample: the claim says an error raised during reading is
delivered to the caller unchanged; but for a concrete parse failure whose
Error message is `boom`, `readDocument` delivers a different error, whose
message carries the prefix `Failed to read document: `. -/
theorem readDocument_rewrites_error :
    readDocument (Except.error (Thrown.jsError "boom"))
      = Except.error (Thrown.jsError "Failed to read document: boom")
    ∧ Thrown.jsError "Failed to read document: boom"
        ≠ Thrown.jsError "boom" :=
  ⟨rfl, by decide⟩

/-- C1, amended: an error that is an `Error` instance does not propagate
unchanged: `parseDocumentWithUnstructured` rethrows it with the prefix
`Failed to parse document with Unstructured API: `, `readDocument` with
the prefix `Failed to read document: `, and `readPdf` wraps a failure of
its own fetch step with the prefix `Failed to read PDF from URL: `; only
a thrown value that is not an `Error` instance propagates unchanged. -/
theorem read_errors_wrapped (msg : String) (t : Nat) (k : String)
    (p : Except Thrown (List UnstructuredElement))
    (hk : (k == "") = false) :
    readDocument (Except.error (Thrown.jsError msg))
      = Except.error (Thrown.jsError ("Failed to read document: " ++ msg))
    ∧ readDocument (Except.error (Thrown.nonError t))
        = Except.error (Thrown.nonError t)
    ∧ readPdf (Except.error (Thrown.jsError msg)) p
        = Except.error (Thrown.jsError ("Failed to read PDF from URL: " ++ msg))
    ∧ readPdf (Except.error (Thrown.nonError t)) p
        = Except.error (Thrown.nonError t)
    ∧ parseDocumentWithUnstructured (some k)
          (Except.error (Thrown.jsError msg))
        = Except.error (Thrown.jsError
            ("Failed to parse document with Unstructured API: " ++ msg))
    ∧ parseDocumentWithUnstructured (some k)
          (Except.error (Thrown.nonError t))
        = Except.error (Thrown.nonError t) := by
  refine ⟨rfl, rfl, rfl, rfl, ?_, ?_⟩
  · simp only [parseDocumentWithUnstructured, Option.getD, hk]
    rfl
  · simp only [parseDocumentWithUnstructured, Option.getD, hk]
    rfl

/-- Witness for the amended C1 at a concrete error, key and parse
outcome. -/
theorem read_errors_wrapped_witness :
    readDocument (Except.error (Thrown.jsError "boom"))
      = Except.error (Thrown.jsError ("Failed to read document: " ++ "boom")) :=
  (read_errors_wrapped "boom" 0 "key" (Except.ok []) (by decide)).1

/-- C3: an empty element list from the parsing service is not an error:
the conversion of the empty list is the empty list, and `readDocument`
on a successful parse of zero elements returns the empty list of text
items rather than a failure. -/
theorem empty_elements_not_error :
    convertUnstructuredToTextItems [] = []
    ∧ readDocument (Except.ok []) = Except.ok [] :=
  ⟨rfl, rfl⟩

/-- C7: every produced text item has `hasEOL = true` and
`fontName = "UnknownFont"`; the conversion fixes both fields for every
converted fragment. -/
theorem convert_eol_font (elements : List UnstructuredElement)
    (item : TextItem) (h : item ∈ convertUnstructuredToTextItems elements) :
    item.hasEOL = true ∧ item.fontName = "UnknownFont" := by
  rcases mem_convert h with ⟨e, _, rfl⟩
  exact ⟨rfl, rfl⟩

/-- Witness for C7 on a concrete one-element input. -/
theorem convert_eol_font_witness :
    (convertElement elemPlain).hasEOL = true
    ∧ (convertElement elemPlain).fontName = "UnknownFont" :=
  convert_eol_font [elemPlain] (convertElement elemPlain) (by decide)

/-- C9: the conversion is a pure, deterministic function of its input
element list: equal inputs give equal outputs (it is embedded as a total
function, faithfully to a source body that reads no state outside its
argument and mutates nothing). -/
theorem convert_deterministic (e1 e2 : List UnstructuredElement)
    (h : e1 = e2) :
    convertUnstructuredToTextItems e1 = convertUnstructuredToTextItems e2 :=
  congrArg convertUnstructuredToTextItems h

/-- Witness for C9 at a concrete input. -/
theorem convert_deterministic_witness :
    convertUnstructuredToTextItems [elemPlain]
      = convertUnstructuredToTextItems [elemPlain] :=
  convert_deterministic [elemPlain] [elemPlain] rfl

/-- C10: the empty-space filter inside `readDocument` is a no-op: since
every converted item has `hasEOL = true`, `isEmptySpace` holds for no
produced item, so on the success path `readDocument` returns exactly the
conversion of the parsed elements. -/
theorem readDocument_filter_noop (elements : List UnstructuredElement) :
    (∀ item ∈ convertUnstructuredToTextItems elements,
      isEmptySpace item = false)
    ∧ readDocument (Except.ok elements)
        = Except.ok (convertUnstructuredToTextItems elements) := by
  have h1 : ∀ item ∈ convertUnstructuredToTextItems elements,
      isEmptySpace item = false := by
    intro item hm
    rcases mem_convert hm with ⟨e, _, rfl⟩
    rfl
  refine ⟨h1, ?_⟩
  show Except.ok ((convertUnstructuredToTextItems elements).filter _) = _
  rw [List.filter_eq_self.mpr]
  intro a ha
  rw [h1 a ha]
  rfl

/-- Witness for C10 on a concrete one-element input. -/
theorem readDocument_filter_noop_witness :
    readDocument (Except.ok [elemPlain])
      = Except.ok (convertUnstructuredToTextItems [elemPlain]) :=
  (readDocument_filter_noop [elemPlain]).2

/-- C2: for every choice of the three downstream stages and every read
outcome, the pipeline result is exactly the composition of the four
stages in order: extract after sections after lines after read, each
stage consuming the previous stage output; `parseResumeFromFile` composes
over `readDocument` and `parseResumeFromPdf` over `readPdf`. -/
theorem pipeline_is_stage_composition {L S R : Type}
    (groupTextItemsIntoLines : List TextItem → L)
    (groupLinesIntoSections : L → S)
    (extractResumeFromSections : S → R)
    (f : Except Thrown Unit)
    (p : Except Thrown (List UnstructuredElement)) :
    parseResumeFromFile groupTextItemsIntoLines groupLinesIntoSections
        extractResumeFromSections p
      = Except.map
          (fun textItems =>
            extractResumeFromSections
              (groupLinesIntoSections (groupTextItemsIntoLines textItems)))
          (readDocument p)
    ∧ parseResumeFromPdf groupTextItemsIntoLines groupLinesIntoSections
        extractResumeFromSections f p
      = Except.map
          (fun textItems =>
            extractResumeFromSections
              (groupLinesIntoSections (groupTextItemsIntoLines textItems)))
          (readPdf f p) := by
  constructor
  · rcases hr : readDocument p with e | items
    · unfold parseResumeFromFile
      rw [hr]
      rfl
    · unfold parseResumeFromFile
      rw [hr]
      rfl
  · rcases hr : readPdf f p with e | items
    · unfold parseResumeFromPdf
      rw [hr]
      rfl
    · unfold parseResumeFromPdf
      rw [hr]
      rfl

/-- C8: when the reading step fails, the pipeline delivers that failure
and none of the downstream stages runs: the result is the read error
itself, and it does not depend on which stage functions are supplied. -/
theorem pipeline_short_circuits {L S R : Type}
    (g1 g4 : List TextItem → L) (g2 g5 : L → S) (g3 g6 : S → R)
    (f : Except Thrown Unit)
    (p : Except Thrown (List UnstructuredElement)) (e : Thrown) :
    (readDocument p = Except.error e →
      parseResumeFromFile g1 g2 g3 p = Except.error e
      ∧ parseResumeFromFile g1 g2 g3 p = parseResumeFromFile g4 g5 g6 p)
    ∧ (readPdf f p = Except.error e →
      parseResumeFromPdf g1 g2 g3 f p = Except.error e
      ∧ parseResumeFromPdf g1 g2 g3 f p = parseResumeFromPdf g4 g5 g6 f p) := by
  constructor
  · intro h
    constructor
    · unfold parseResumeFromFile
      rw [h]
    · unfold parseResumeFromFile
      rw [h]
  · intro h
    constructor
    · unfold parseResumeFromPdf
      rw [h]
    · unfold parseResumeFromPdf
      rw [h]

/-- Witness for C8 at a concrete failing parse outcome, with identity
stage functions. -/
theorem pipeline_short_circuits_witness :
    parseResumeFromFile (fun l => l) (fun l => l) (fun l => l)
        (Except.error (Thrown.jsError "boom"))
      = Except.error (Thrown.jsError ("Failed to read document: " ++ "boom")) :=
  ((pipeline_short_circuits (fun l => l) (fun l => l) (fun l => l)
      (fun l => l) (fun l => l) (fun l => l) (Except.ok ())
      (Except.error (Thrown.jsError "boom"))
      (Thrown.jsError ("Failed to read document: " ++ "boom"))).1 rfl).1

/-- C4: the conversion drops exactly the elements whose text is empty or
whitespace-only, each surviving element yields exactly one item whose
text equals the element text, and the surviving elements keep their
relative order: the output is the map of the conversion over the
blank-filtered input, and the output texts are exactly the non-blank
input texts in order. -/
theorem convert_drops_exactly_blank (elements : List UnstructuredElement) :
    convertUnstructuredToTextItems elements
      = (elements.filter (fun e => !(jsTrim e.text == ""))).map convertElement
    ∧ (∀ e : UnstructuredElement, (convertElement e).text = e.text)
    ∧ (convertUnstructuredToTextItems elements).map TextItem.text
      = (elements.map UnstructuredElement.text).filter
          (fun s => !(jsTrim s == "")) := by
  have hfun : keepsElement = fun e => !(jsTrim e.text == "") :=
    funext keepsElement_eq_trim
  have h1 : convertUnstructuredToTextItems elements
      = (elements.filter (fun e => !(jsTrim e.text == ""))).map
          convertElement := by
    rw [convertUnstructuredToTextItems, hfun]
  refine ⟨h1, fun e => rfl, ?_⟩
  rw [h1, List.map_map]
  have h2 : TextItem.text ∘ convertElement = UnstructuredElement.text :=
    funext fun e => rfl
  rw [h2]
  exact map_text_filter elements

/-- C5: for an element whose metadata carries coordinates with a nonempty
points list, the produced item has `x` equal to the minimum of the points
x-values, `x + width` equal to their maximum (so `width` is maximum minus
minimum), `height` equal to the maximum y-value minus the minimum
y-value, and `y` equal to `pageHeight` minus the maximum y-value, where
`pageHeight` is `layout_height` when nonzero and `792` otherwise. -/
theorem convert_position_fields (e : UnstructuredElement) (c : Coordinates)
    (hc : (e.metadata.getD {}).coordinates = some c) (hp : c.points ≠ []) :
    ((convertElement e).x ∈ c.points.map Prod.fst
      ∧ ∀ v ∈ c.points.map Prod.fst, (convertElement e).x ≤ v)
    ∧ ((convertElement e).x + (convertElement e).width ∈ c.points.map Prod.fst
      ∧ ∀ v ∈ c.points.map Prod.fst,
          v ≤ (convertElement e).x + (convertElement e).width)
    ∧ (∃ hi lo, hi ∈ c.points.map Prod.snd ∧ lo ∈ c.points.map Prod.snd
      ∧ (∀ v ∈ c.points.map Prod.snd, lo ≤ v ∧ v ≤ hi)
      ∧ (convertElement e).height = hi - lo
      ∧ (convertElement e).y
          = (if c.layout_height = 0 then (792 : Rat) else c.layout_height)
            - hi) := by
  have hxs : c.points.map Prod.fst ≠ [] :=
    fun h0 => hp (List.map_eq_nil_iff.mp h0)
  have hys : c.points.map Prod.snd ≠ [] :=
    fun h0 => hp (List.map_eq_nil_iff.mp h0)
  have hx : (convertElement e).x = mathMin (c.points.map Prod.fst) := by
    rw [convertElement_x, hc, convertPos_some c hp]
  have hw : (convertElement e).width
      = mathMax (c.points.map Prod.fst) - mathMin (c.points.map Prod.fst) := by
    rw [convertElement_width, hc, convertPos_some c hp]
  have hh : (convertElement e).height
      = mathMax (c.points.map Prod.snd) - mathMin (c.points.map Prod.snd) := by
    rw [convertElement_height, hc, convertPos_some c hp]
  have hy : (convertElement e).y
      = (if c.layout_height = 0 then (792 : Rat) else c.layout_height)
        - mathMax (c.points.map Prod.snd) := by
    rw [convertElement_y, hc, convertPos_some c hp]
  have hxw : (convertElement e).x + (convertElement e).width
      = mathMax (c.points.map Prod.fst) := by
    rw [hx, hw]
    ring
  refine ⟨⟨?_, ?_⟩, ⟨?_, ?_⟩, ?_⟩
  · rw [hx]
    exact mathMin_mem hxs
  · intro v hv
    rw [hx]
    exact mathMin_le hv
  · rw [hxw]
    exact mathMax_mem hxs
  · intro v hv
    rw [hxw]
    exact le_mathMax hv
  · exact ⟨mathMax (c.points.map Prod.snd), mathMin (c.points.map Prod.snd),
      mathMax_mem hys, mathMin_mem hys,
      fun v hv => ⟨mathMin_le hv, le_mathMax hv⟩, hh, hy⟩

/-- Witness for C5 on a concrete element with four corner points. -/
theorem convert_position_fields_witness :
    (convertElement elemCoords).x ∈ coordsA.points.map Prod.fst
    ∧ ∀ v ∈ coordsA.points.map Prod.fst, (convertElement elemCoords).x ≤ v :=
  (convert_position_fields elemCoords coordsA rfl (by decide)).1

theorem convertElement_nonneg (e : UnstructuredElement) :
    0 ≤ (convertElement e).width ∧ 0 ≤ (convertElement e).height := by
  rcases hco : (e.metadata.getD {}).coordinates with _ | c
  · rw [convertElement_width, convertElement_height, hco, convertPos_none]
    exact ⟨by norm_num, by norm_num⟩
  · by_cases hp : c.points = []
    · rw [convertElement_width, convertElement_height, hco,
        convertPos_no_points c hp]
      exact ⟨by norm_num, by norm_num⟩
    · have hxs : c.points.map Prod.fst ≠ [] :=
        fun h0 => hp (List.map_eq_nil_iff.mp h0)
      have hys : c.points.map Prod.snd ≠ [] :=
        fun h0 => hp (List.map_eq_nil_iff.mp h0)
      rw [convertElement_width, convertElement_height, hco,
        convertPos_some c hp]
      exact ⟨sub_nonneg.mpr (mathMin_le_mathMax hxs),
        sub_nonneg.mpr (mathMin_le_mathMax hys)⟩

/-- C6: every produced item has nonnegative width and height, both when
the element carries coordinate points (maximum minus minimum over the
same point set) and when the defaults 100 and 12 are used. -/
theorem convert_width_height_nonneg (elements : List UnstructuredElement)
    (item : TextItem) (h : item ∈ convertUnstructuredToTextItems elements) :
    0 ≤ item.width ∧ 0 ≤ item.height := by
  rcases mem_convert h with ⟨e, _, rfl⟩
  exact convertElement_nonneg e

/-- Witness for C6 on a concrete coordinate-carrying element. -/
theorem convert_width_height_nonneg_witness :
    0 ≤ (convertElement elemCoords).width
    ∧ 0 ≤ (convertElement elemCoords).height :=
  convert_width_height_nonneg [elemCoords] (convertElement elemCoords)
    (List.mem_map.mpr ⟨elemCoords,
      List.mem_filter.mpr ⟨List.mem_cons_self _ _, by decide⟩, rfl⟩)

end OpenResume
